import Mathlib

/-!
Shallow embedding of the backend health-check API, the API-level exception
handlers, and the custom user model of the `code-geek/ai-project-template`
repository (`src/backend/apps/core/api.py`, `src/backend/config/api_config.py`,
`src/backend/apps/users/models.py`), together with theorems checking the
specification's claims against it.

External effects (the database cursor, the cache client, the migration
management command, the current clock) are modelled as an explicit environment
`Env` whose fields give the outcome of each external call: `Except.ok` for a
normal return, `Except.error s` for a raised exception whose `str(...)` is `s`.
The handlers are then total Lean functions of the environment, mirroring the
Python control flow (`try`/`except` becomes a `match` on the `Except` value).
The framework (django-ninja) serialises a handler that returns a plain mapping
with HTTP status 200; this default is modelled by `DEFAULT_STATUS`.
-/

namespace Backend

/-- Outcome of every external call a handler can make.  Each field stands for
one effectful operation of the Python code:
`dbExecute q` is `cursor.execute(q); cursor.fetchone()`,
`cacheSet k v ttl` is `cache.set(k, v, ttl)`,
`cacheGet k` is `cache.get(k)` (`none` models Python `None`),
`showmigrations` is `call_command("showmigrations", "--plan", stdout=out)`
returning the captured text.  `Except.error s` means the call raised an
exception with string representation `s`. -/
structure Env where
  dbExecute : String → Except String Unit
  cacheSet : String → String → Nat → Except String Unit
  cacheGet : String → Except String (Option String)
  showmigrations : Except String String

/-- HTTP status the framework attaches to a handler that returns a plain
mapping without overriding the status code: django-ninja's default 200. -/
def DEFAULT_STATUS : Nat := 200

/-- Response body of `health_check` (`/health/`). -/
structure HealthResponse where
  status : String
  timestamp : String
  service : String
  version : String
  deriving DecidableEq, Repr

/-- Response body of `database_health_check` (`/health/db/`). -/
structure DbHealthResponse where
  database : String
  error : Option String
  timestamp : String
  deriving DecidableEq, Repr

/-- Response body of `cache_health_check` (`/health/cache/`). -/
structure CacheHealthResponse where
  cache : String
  error : Option String
  timestamp : String
  deriving DecidableEq, Repr

/-- The `checks` mapping of the readiness response, in the insertion order of
the Python dict: `database`, `cache`, `migrations`. -/
structure Checks where
  database : Bool
  cache : Bool
  migrations : Bool
  deriving DecidableEq, Repr

/-- Response body of `readiness_check` (`/health/ready/`).  `errors` models
the Python `errors if errors else None`: `none` when the dict is empty, else
the key/value pairs in insertion order. -/
structure ReadyResponse where
  ready : Bool
  checks : Checks
  errors : Option (List (String × String))
  timestamp : String
  deriving DecidableEq, Repr

/-- `health_check` from `src/backend/apps/core/api.py`: returns a constant
mapping; `now` stands for `datetime.now(UTC).isoformat()`. -/
def health_check (now : String) : HealthResponse :=
  { status := "healthy"
    timestamp := now
    service := "backend-api"
    version := "1.0.0" }

/-- The liveness endpoint as served: a plain mapping return, so the framework
uses the default status. -/
def health_check_response (now : String) : Nat × HealthResponse :=
  (DEFAULT_STATUS, health_check now)

/-- `database_health_check` from `src/backend/apps/core/api.py`: runs
`SELECT 1` through the connection cursor; on success reports `"connected"`
with a null error, on any exception reports `"error"` with `str(e)`. -/
def database_health_check (env : Env) (now : String) : DbHealthResponse :=
  match env.dbExecute "SELECT 1" with
  | .ok _ => { database := "connected", error := none, timestamp := now }
  | .error e => { database := "error", error := some e, timestamp := now }

/-- The sequence `cache.set(key, value, ttl)` then `cache.get(key)` inside one
`try` block: an exception in either call escapes as `.error`; otherwise the
result is the value read back. -/
def cacheRoundTrip (env : Env) (key value : String) (ttl : Nat) :
    Except String (Option String) :=
  match env.cacheSet key value ttl with
  | .error e => .error e
  | .ok _ => env.cacheGet key

/-- `cache_health_check` from `src/backend/apps/core/api.py`: writes the
sentinel `"ok"` under `"health_check"` with a 1-second ttl, reads it back, and
reports `"connected"` when the value read equals `"ok"`, else `"error"`; on
the non-exception path `cache_error` stays `None`.  Any exception yields
`"error"` with `str(e)`. -/
def cache_health_check (env : Env) (now : String) : CacheHealthResponse :=
  match cacheRoundTrip env "health_check" "ok" 1 with
  | .ok value =>
      { cache := if value == some "ok" then "connected" else "error"
        error := none
        timestamp := now }
  | .error e => { cache := "error", error := some e, timestamp := now }

/-- Does `pat` occur at the start of the character list? -/
def charsStartWith : List Char → List Char → Bool
  | _, [] => true
  | [], _ :: _ => false
  | c :: cs, p :: ps => c == p && charsStartWith cs ps

/-- Does `pat` occur as a contiguous run anywhere in the character list? -/
def charsContain : List Char → List Char → Bool
  | [], pat => pat.isEmpty
  | c :: cs, pat => charsStartWith (c :: cs) pat || charsContain cs pat

/-- Python's substring test `marker in s`, on the underlying character
lists. -/
def containsMarker (s marker : String) : Bool :=
  charsContain s.toList marker.toList

/-- `readiness_check` from `src/backend/apps/core/api.py`: starts with all
three checks `True` and an empty `errors` dict, then runs the database block,
the cache block and the migrations block in order, each flipping its check and
recording an error string exactly as the Python `try`/`except` blocks do.  The
cache block records no error when the read-back merely differs from `"ok"`;
the migrations block flags `"Pending migrations detected"` when the plan
output contains the `"[ ]"` marker.  The handler returns only the body — the
trailing comment in the source leaves the status code to the caller. -/
def readiness_check (env : Env) (now : String) : ReadyResponse :=
  let checks0 : Checks := { database := true, cache := true, migrations := true }
  let errors0 : List (String × String) := []
  let step1 :=
    match env.dbExecute "SELECT 1" with
    | .ok _ => (checks0, errors0)
    | .error e => ({ checks0 with database := false }, errors0 ++ [("database", e)])
  let step2 :=
    match cacheRoundTrip env "readiness_check" "ok" 1 with
    | .ok v =>
        if v != some "ok" then ({ step1.1 with cache := false }, step1.2)
        else step1
    | .error e => ({ step1.1 with cache := false }, step1.2 ++ [("cache", e)])
  let step3 :=
    match env.showmigrations with
    | .ok out =>
        if containsMarker out "[ ]" then
          ({ step2.1 with migrations := false },
           step2.2 ++ [("migrations", "Pending migrations detected")])
        else step2
    | .error e => ({ step2.1 with migrations := false }, step2.2 ++ [("migrations", e)])
  let all_healthy := step3.1.database && step3.1.cache && step3.1.migrations
  { ready := all_healthy
    checks := step3.1
    errors := if step3.2.isEmpty then none else some step3.2
    timestamp := now }

/-- The readiness endpoint as served: the handler returns a plain mapping, so
the framework attaches the default status. -/
def readiness_check_response (env : Env) (now : String) : Nat × ReadyResponse :=
  (DEFAULT_STATUS, readiness_check env now)

/-- An exception handler registered on the API object
(`src/backend/config/api_config.py`): the exception class it is declared for,
the HTTP status it responds with, and the `"error"` field of the JSON body it
builds from `str(exc)`. -/
structure ExcHandler where
  excType : String
  status : Nat
  body : String → String

/-- `value_error_handler` from `src/backend/config/api_config.py`: registered
for `ValueError`, responds with status 400 and body `{"error": str(exc)}`. -/
def value_error_handler : ExcHandler :=
  { excType := "ValueError", status := 400, body := fun excStr => excStr }

/-- `permission_error_handler` from `src/backend/config/api_config.py`:
registered for `PermissionError`, responds with status 403 and a constant
message. -/
def permission_error_handler : ExcHandler :=
  { excType := "PermissionError"
    status := 403
    body := fun _ => "You don\x27t have permission to perform this action" }

/-- The exception handlers declared on the API object, in declaration order:
exactly the two `@api.exception_handler(...)` registrations in
`src/backend/config/api_config.py`. -/
def api_exception_handlers : List ExcHandler :=
  [value_error_handler, permission_error_handler]

/-- The `User` row of `src/backend/apps/users/models.py`: the declared fields
`email`, `first_name`, `last_name` plus the inherited `username` named by
`REQUIRED_FIELDS`. -/
structure User where
  email : String
  first_name : String
  last_name : String
  username : String
  deriving DecidableEq, Repr

/-- `USERNAME_FIELD = "email"` from the `User` model. -/
def USERNAME_FIELD : String := "email"

/-- `REQUIRED_FIELDS` from the `User` model. -/
def REQUIRED_FIELDS : List String := ["username", "first_name", "last_name"]

/-- `User.__str__`: returns `self.email`. -/
def User.str (u : User) : String := u.email

/-- Insertion of a new row into the `users_user` table.  The model declares
`email = models.EmailField(unique=True)`, so inserting a row whose email
equals an existing row's email fails with the uniqueness violation the
database raises for the declared constraint; otherwise the row is appended. -/
def create_user (db : List User) (u : User) : Except String (List User) :=
  if db.any (fun v => v.email == u.email) then
    .error "UNIQUE constraint failed: users_user.email"
  else
    .ok (db ++ [u])

/-- Environment where every external call succeeds: the database answers the
round-trip query, the cache stores and returns what was last set (here,
the sentinel), and the migration plan shows no unapplied migration. -/
def envAllOk : Env :=
  { dbExecute := fun _ => .ok ()
    cacheSet := fun _ _ _ => .ok ()
    cacheGet := fun _ => .ok (some "ok")
    showmigrations := .ok "[X] 0001_initial" }

/-- Environment where the database query raises `connection refused` and
everything else succeeds. -/
def envDbDown : Env :=
  { envAllOk with dbExecute := fun _ => .error "connection refused" }

/-- Environment where the cache calls succeed but the read-back returns a
stale value different from the sentinel just written. -/
def envCacheStale : Env :=
  { envAllOk with cacheGet := fun _ => .ok (some "stale") }

/-- Environment where the cache client raises on every call. -/
def envCacheDown : Env :=
  { envAllOk with cacheSet := fun _ _ _ => .error "redis timeout" }

/-- Environment where the migration plan output contains the unapplied-
migration marker. -/
def envPendingMigrations : Env :=
  { envAllOk with showmigrations := .ok "[ ] 0002_add_field" }

/-- A concrete user row, as in the test fixtures. -/
def userTest : User :=
  { email := "test@example.com", first_name := "Test", last_name := "User"
    username := "test" }

/-- A second user row sharing `userTest`'s email. -/
def userDup : User :=
  { email := "test@example.com", first_name := "New", last_name := "User"
    username := "new" }

/-- C6: for every request the liveness handler returns HTTP 200 with
`status == "healthy"`, the framework-provided timestamp, and the constant
service metadata `backend-api` / `1.0.0`; being a total function of the
clock alone, it has no failure path. -/
theorem health_check_always_healthy (now : String) :
    health_check_response now =
      (200, { status := "healthy", timestamp := now, service := "backend-api"
              version := "1.0.0" }) := rfl

/-- C7: the API layer declares exactly two exception-to-status mappings:
`ValueError` to 400 with a body carrying the exception's string, and
`PermissionError` to 403. -/
theorem api_exception_mappings :
    value_error_handler.excType = "ValueError" ∧
    value_error_handler.status = 400 ∧
    (∀ s, value_error_handler.body s = s) ∧
    permission_error_handler.excType = "PermissionError" ∧
    permission_error_handler.status = 403 ∧
    api_exception_handlers = [value_error_handler, permission_error_handler] ∧
    api_exception_handlers.length = 2 :=
  ⟨rfl, rfl, fun _ => rfl, rfl, rfl, rfl, rfl⟩

/-- C4: the database health check reports `"connected"` with a null `error`
when the round-trip query succeeds, and `"error"` with the exception's string
in `error` when it raises. -/
theorem database_health_check_correct (env : Env) (now : String) :
    (env.dbExecute "SELECT 1" = .ok () →
      database_health_check env now =
        { database := "connected", error := none, timestamp := now }) ∧
    (∀ e, env.dbExecute "SELECT 1" = .error e →
      database_health_check env now =
        { database := "error", error := some e, timestamp := now }) := by
  constructor
  · intro h
    simp [database_health_check, h]
  · intro e h
    simp [database_health_check, h]

/-- Witness for `database_health_check_correct` at the environment whose
database raises `connection refused`. -/
theorem database_health_check_correct_witness :
    database_health_check envDbDown "t" =
      { database := "error", error := some "connection refused"
        timestamp := "t" } :=
  (database_health_check_correct envDbDown "t").2 "connection refused" rfl

/-- C1: for every combination of sub-check outcomes, the readiness response's
`ready` field equals the conjunction of the three booleans in its `checks`
mapping. -/
theorem readiness_ready_eq_and_of_checks (env : Env) (now : String) :
    (readiness_check env now).ready =
      ((readiness_check env now).checks.database &&
        (readiness_check env now).checks.cache &&
        (readiness_check env now).checks.migrations) := by
  unfold readiness_check
  rcases hdb : env.dbExecute "SELECT 1" with e | u <;>
  rcases hc : cacheRoundTrip env "readiness_check" "ok" 1 with e2 | v <;>
  rcases hm : env.showmigrations with e3 | out <;>
  simp only [hdb, hc, hm]

/-- C3: the cache health check reports `"connected"` iff the sentinel written
to the cache is read back equal to `"ok"`; in every other case, exceptions
included, it reports `"error"`. -/
theorem cache_health_check_connected_iff (env : Env) (now : String) :
    ((cache_health_check env now).cache = "connected" ↔
      cacheRoundTrip env "health_check" "ok" 1 = .ok (some "ok")) ∧
    (cacheRoundTrip env "health_check" "ok" 1 ≠ .ok (some "ok") →
      (cache_health_check env now).cache = "error") := by
  rcases hc : cacheRoundTrip env "health_check" "ok" 1 with e | v
  · simp [cache_health_check, hc]
  · rcases hv : (v == some "ok") with _ | _
    · have hne : v ≠ some "ok" := by simpa using hv
      simp [cache_health_check, hc, hv, hne]
    · have heq : v = some "ok" := by simpa using hv
      simp [cache_health_check, hc, hv, heq]

/-- Witness for `cache_health_check_connected_iff` at the environment whose
cache read-back returns a stale value. -/
theorem cache_health_check_connected_iff_witness :
    (cache_health_check envCacheStale "t").cache = "error" :=
  (cache_health_check_connected_iff envCacheStale "t").2
    (by simp [cacheRoundTrip, envCacheStale, envAllOk])

/-- C10: when the cache round trip returns, without raising, a value different
from the written sentinel, the cache health check reports `"error"` while its
`error` field stays null — a null `error` does not imply `"connected"`. -/
theorem cache_mismatch_error_none (env : Env) (now : String) (v : Option String)
    (h : cacheRoundTrip env "health_check" "ok" 1 = .ok v)
    (hne : v ≠ some "ok") :
    (cache_health_check env now).cache = "error" ∧
    (cache_health_check env now).error = none := by
  have hvb : (v == some "ok") = false := by simpa using hne
  simp [cache_health_check, h, hvb]

/-- Witness for `cache_mismatch_error_none` at the stale-cache
environment. -/
theorem cache_mismatch_error_none_witness :
    (cache_health_check envCacheStale "t").cache = "error" ∧
    (cache_health_check envCacheStale "t").error = none :=
  cache_mismatch_error_none envCacheStale "t" (some "stale") rfl (by decide)

/-- C9: when the readiness cache read-back returns a value different from the
written sentinel without raising, `checks.cache` is set to false yet no
`"cache"` key is recorded in `errors`; with the other two checks healthy the
response therefore has `errors = none` while `ready = false`. -/
theorem readiness_cache_mismatch_unreported (env : Env) (now : String)
    (v : Option String)
    (hset : env.cacheSet "readiness_check" "ok" 1 = .ok ())
    (hget : env.cacheGet "readiness_check" = .ok v)
    (hne : v ≠ some "ok") :
    (readiness_check env now).checks.cache = false ∧
    ((((readiness_check env now).errors.getD []).all
        fun p => p.1 != "cache") = true) ∧
    (env.dbExecute "SELECT 1" = .ok () →
      ∀ out, env.showmigrations = .ok out → containsMarker out "[ ]" = false →
        (readiness_check env now).errors = none ∧
        (readiness_check env now).ready = false) := by
  have hrt : cacheRoundTrip env "readiness_check" "ok" 1 = .ok v := by
    simp [cacheRoundTrip, hset, hget]
  have hvb : (v != some "ok") = true := by simpa using hne
  refine ⟨?_, ?_, ?_⟩
  · rcases hdb : env.dbExecute "SELECT 1" with e | u <;>
    rcases hm : env.showmigrations with e3 | out <;>
    simp [readiness_check, hdb, hrt, hm, hvb] <;>
    split_ifs <;> simp
  · rcases hdb : env.dbExecute "SELECT 1" with e | u <;>
    rcases hm : env.showmigrations with e3 | out <;>
    simp [readiness_check, hdb, hrt, hm, hvb] <;>
    split_ifs <;>
    simp <;>
    intro a b h <;>
    first
      | (obtain ⟨rfl, -⟩ | ⟨rfl, -⟩ := h <;> decide)
      | (obtain ⟨rfl, -⟩ := h; decide)
  · intro hdb out hm hmark
    simp [readiness_check, hdb, hrt, hm, hvb, hmark]

/-- Witness for `readiness_cache_mismatch_unreported` at the stale-cache
environment: the cache check fails, yet `errors` is null and `ready` is
false. -/
theorem readiness_cache_mismatch_unreported_witness :
    (readiness_check envCacheStale "t").checks.cache = false ∧
    (readiness_check envCacheStale "t").errors = none ∧
    (readiness_check envCacheStale "t").ready = false := by
  obtain ⟨h1, _, h3⟩ :=
    readiness_cache_mismatch_unreported envCacheStale "t" (some "stale")
      rfl rfl (by decide)
  obtain ⟨h4, h5⟩ := h3 rfl "[X] 0001_initial" rfl (by decide)
  exact ⟨h1, h4, h5⟩

/-- C5: every exception raised by a database, cache, or migration sub-check is
caught by the handler, converted to its string, and surfaced only inside the
returned mapping; the handlers (total functions of the environment, mirroring
the catch-all `except` blocks) return normally in every case. -/
theorem health_handlers_catch_all (env : Env) (now : String) :
    (∀ e, env.dbExecute "SELECT 1" = .error e →
      database_health_check env now =
        { database := "error", error := some e, timestamp := now }) ∧
    (∀ e, cacheRoundTrip env "health_check" "ok" 1 = .error e →
      cache_health_check env now =
        { cache := "error", error := some e, timestamp := now }) ∧
    (∀ e, env.dbExecute "SELECT 1" = .error e →
      (readiness_check env now).checks.database = false ∧
      ("database", e) ∈ (readiness_check env now).errors.getD []) ∧
    (∀ e, cacheRoundTrip env "readiness_check" "ok" 1 = .error e →
      (readiness_check env now).checks.cache = false ∧
      ("cache", e) ∈ (readiness_check env now).errors.getD []) ∧
    (∀ e, env.showmigrations = .error e →
      (readiness_check env now).checks.migrations = false ∧
      ("migrations", e) ∈ (readiness_check env now).errors.getD []) := by
  refine ⟨?_, ?_, ?_, ?_, ?_⟩
  · intro e h
    simp [database_health_check, h]
  · intro e h
    simp [cache_health_check, h]
  · intro e h
    rcases hc : cacheRoundTrip env "readiness_check" "ok" 1 with e2 | v <;>
    rcases hm : env.showmigrations with e3 | out <;>
    simp [readiness_check, h, hc, hm] <;>
    split_ifs <;> simp_all
  · intro e h
    rcases hdb : env.dbExecute "SELECT 1" with e2 | u <;>
    rcases hm : env.showmigrations with e3 | out <;>
    simp [readiness_check, hdb, h, hm] <;>
    split_ifs <;> simp_all
  · intro e h
    rcases hdb : env.dbExecute "SELECT 1" with e2 | u <;>
    rcases hc : cacheRoundTrip env "readiness_check" "ok" 1 with e3 | v <;>
    simp [readiness_check, hdb, hc, h] <;>
    split_ifs <;> simp_all

/-- Witness for `health_handlers_catch_all` at the environment whose database
raises `connection refused`. -/
theorem health_handlers_catch_all_witness :
    database_health_check envDbDown "t" =
      { database := "error", error := some "connection refused"
        timestamp := "t" } ∧
    (readiness_check envDbDown "t").checks.database = false ∧
    ("database", "connection refused") ∈
      (readiness_check envDbDown "t").errors.getD [] := by
  obtain ⟨h1, -, h3, -, -⟩ := health_handlers_catch_all envDbDown "t"
  obtain ⟨h4, h5⟩ := h3 "connection refused" rfl
  exact ⟨h1 "connection refused" rfl, h4, h5⟩

/-- C2 (divergence): with the database down the readiness response reports
`ready = false` yet is served at the framework default status 200, not 503 —
the handler returns only the body and never sets a status code, contradicting
its own docstring `Returns 503 if any critical service is down`. -/
theorem readiness_status_stays_200_on_failure :
    readiness_check_response envDbDown "t" =
      (200,
        { ready := false
          checks := { database := false, cache := true, migrations := true }
          errors := some [("database", "connection refused")]
          timestamp := "t" }) ∧
    DEFAULT_STATUS ≠ 503 := ⟨by decide, by decide⟩

/-- C8: inserting a user whose email duplicates an existing row's fails with
the uniqueness violation of the declared unique email column; inserting one
with a fresh email succeeds; `str(user)` is the user's email, and the login
identifier (`USERNAME_FIELD`) is `email`. -/
theorem user_unique_email_and_str (db : List User) (u : User) :
    ((∃ v ∈ db, v.email = u.email) →
      create_user db u = .error "UNIQUE constraint failed: users_user.email") ∧
    ((∀ v ∈ db, v.email ≠ u.email) → create_user db u = .ok (db ++ [u])) ∧
    User.str u = u.email ∧
    USERNAME_FIELD = "email" := by
  refine ⟨?_, ?_, rfl, rfl⟩
  · intro h
    have hb : db.any (fun v => v.email == u.email) = true := by
      rw [List.any_eq_true]
      obtain ⟨v, hv, he⟩ := h
      exact ⟨v, hv, by simpa using he⟩
    simp [create_user, hb]
  · intro h
    have hb : db.any (fun v => v.email == u.email) = false := by
      rw [List.any_eq_false]
      intro v hv
      simpa using h v hv
    simp [create_user, hb]

/-- Witness for `user_unique_email_and_str`: inserting `userDup`, whose email
equals `userTest`'s, into the table holding `userTest` fails with the
uniqueness violation, and `str(userDup)` is its email. -/
theorem user_unique_email_and_str_witness :
    create_user [userTest] userDup =
      .error "UNIQUE constraint failed: users_user.email" ∧
    User.str userDup = "test@example.com" := by
  obtain ⟨h1, -, h3, -⟩ := user_unique_email_and_str [userTest] userDup
  exact ⟨h1 ⟨userTest, by simp, rfl⟩, h3⟩

end Backend
